import Mathlib

set_option maxRecDepth 8000

/-!
Shallow embedding of `kitty/char_grid.py`: the selection tracker, scroll
window mapper, cell-data synchronizer and render cache of a terminal
character grid.  Pure Python functions become Lean functions; the mutable
`CharGrid` object becomes an explicit state record transformed by pure
functions; the external C screen model (`fast_data_types`) is modelled by
input tokens described in the doc comments.
-/

namespace Kitty

/-- Python tuple comparison `a <= b` on pairs of ints: lexicographic,
first components compared first. -/
def tupLe (a b : Int × Int) : Bool :=
  decide (a.1 < b.1 ∨ (a.1 = b.1 ∧ a.2 ≤ b.2))

/-- The slots of `Selection`: endpoints stored as columns (`start_x`, `end_x`),
rows (`start_y`, `end_y`), the scroll offset in effect when each endpoint
was recorded, and the in-progress flag. -/
structure Selection where
  in_progress : Bool
  start_x : Int
  start_y : Int
  start_scrolled_by : Int
  end_x : Int
  end_y : Int
  end_scrolled_by : Int
deriving Repr, DecidableEq

namespace Selection

/-- The state written by `Selection.clear`: the reset state — not in progress, all coordinates
and recorded offsets zero. -/
def clear : Selection :=
  { in_progress := false, start_x := 0, start_y := 0, start_scrolled_by := 0,
    end_x := 0, end_y := 0, end_scrolled_by := 0 }

/-- Embedding of `Selection.limits(scrolled_by)`: re-bases each endpoint into the current
scroll frame (`row - recorded_offset + scrolled_by`, column unchanged) and
returns the two `(x, y)` tuples ordered by Python tuple `<=`. -/
def limits (s : Selection) (scrolled_by : Int) : (Int × Int) × (Int × Int) :=
  let a : Int × Int := (s.start_x, s.start_y - s.start_scrolled_by + scrolled_by)
  let b : Int × Int := (s.end_x, s.end_y - s.end_scrolled_by + scrolled_by)
  if tupLe a b then (a, b) else (b, a)

end Selection

/-- Modelled from the spec: the external screen model (`§6`), consumed
through `columns`, `lines`, `line(row)`, `historybuf.line(depth)` and
`historybuf.count`.  Lines are lists of characters; `historyLines` holds
the scroll-back, most recent line first (depth 1). -/
structure Screen where
  columns : Nat
  lines : Nat
  mainLines : List (List Char)
  historyLines : List (List Char)
deriving Repr, DecidableEq

/-- Cell lookup `line[x]` on a line-like object; real `Line` objects hold
exactly `columns` cells, space-filled, so missing cells read as spaces. -/
def lineAt (l : List Char) (x : Nat) : Char :=
  l.getD x ' '

/-- Where a rendered row resolves to: a history line at a given depth, or a
live screen row. -/
inductive LineRef
  | history (depth : Nat)
  | live (row : Nat)
deriving Repr, DecidableEq

/-- Embedding of `CharGrid.screen_line(y)` (the resolution part): the line shown at row
`y` of the rendered screen, given the current scroll offset.  Returns
`none` for rows outside `[0, lines)`. -/
def screen_line (sc : Screen) (scrolled_by : Nat) (y : Int) : Option LineRef :=
  if 0 ≤ y ∧ y < (sc.lines : Int) then
    if scrolled_by ≠ 0 then
      if y < (scrolled_by : Int) then some (LineRef.history (scrolled_by - y.toNat))
      else some (LineRef.live (y.toNat - scrolled_by))
    else some (LineRef.live y.toNat)
  else none

/-- Modelled from the spec: `screen.line(row)` and `historybuf.line(depth)`
always return a line of `columns` cells for valid references. -/
def lineContent (sc : Screen) : LineRef → List Char
  | LineRef.history d => sc.historyLines.getD (d - 1) (List.replicate sc.columns ' ')
  | LineRef.live r => sc.mainLines.getD r (List.replicate sc.columns ' ')

/-- The function `screen_line` composed with content lookup: the characters of the line
shown at rendered row `y`, or `none` when the row is out of bounds. -/
def screen_line_content (sc : Screen) (scrolled_by : Nat) (y : Int) : Option (List Char) :=
  (screen_line sc scrolled_by y).map (lineContent sc)

/-- Python `range(a, b + 1)` over ints, as a list. -/
def intRange (a b : Int) : List Int :=
  (List.range (b + 1 - a).toNat).map (fun i => a + (i : Int))

/-- Python `str.rstrip(' ')`: remove trailing space characters. -/
def rstripSpace (l : List Char) : List Char :=
  (l.reverse.dropWhile (fun c => c == ' ')).reverse

/-- The list `lines` built by `CharGrid.text_for_selection`: one trimmed,
clipped line per selected row (rows whose `screen_line` is `none` are
skipped; here that is exactly the out-of-bounds rows). -/
def selection_lines (sc : Screen) (scrolled_by : Nat) (sel : Selection) : List (List Char) :=
  let se := sel.limits (scrolled_by : Int)
  let s := se.1
  let e := se.2
  if s ≠ e then
    (intRange s.2 e.2).filterMap (fun y =>
      match screen_line sc scrolled_by y with
      | none => none
      | some ref =>
        let line := lineContent sc ref
        let endx0 : Int := (sc.columns : Int) - 1
        let startx : Int := if y = s.2 then max 0 (min s.1 endx0) else 0
        let endx : Int := if y = e.2 then max 0 (min e.1 endx0) else endx0
        some (rstripSpace ((intRange startx endx).map (fun x => lineAt line x.toNat))))
  else []

/-- Embedding of `CharGrid.text_for_selection`: the selected rows, each trimmed of
trailing spaces and clipped at the first/last row, joined by newlines. -/
def text_for_selection (sc : Screen) (scrolled_by : Nat) (sel : Selection) : List Char :=
  List.intercalate ['\n'] (selection_lines sc scrolled_by sel)

/-- The regex `r'\w'` of `multi_click`, on the ASCII range where it equals
the class `[A-Za-z0-9_]`. -/
def matchesW (c : Char) : Bool :=
  c.isAlphanum || c == '_'

/-- The leftward scan of `multi_click` (count 2): starting at column `i`,
step left while the column is in range and holds a word character; `fuel`
bounds the iteration (callers pass enough for the loop to terminate by its
guard). -/
def scan_left (line : List Char) : Nat → Int → Int
  | 0, i => i
  | Nat.succ f, i =>
    if 0 ≤ i ∧ matchesW (lineAt line i.toNat) then scan_left line f (i - 1) else i

/-- The rightward scan of `multi_click` (count 2): starting at column `i`,
step right while the column is below `columns` and holds a word
character. -/
def scan_right (line : List Char) (columns : Nat) : Nat → Int → Int
  | 0, i => i
  | Nat.succ f, i =>
    if i < (columns : Int) ∧ matchesW (lineAt line i.toNat) then
      scan_right line columns f (i + 1)
    else i

/-- The first-non-space for-else loop of `multi_click` (count 3): the first
column whose cell is not a space, or 0 when the line is all spaces. -/
def firstNonSpace (line : List Char) (columns : Nat) : Int :=
  match (List.range columns).find? (fun i => !(lineAt line i == ' ')) with
  | some i => (i : Int)
  | none => 0

/-- The last-non-space for-else loop of `multi_click` (count 3): the last
column whose cell is not a space, or `columns - 1` when the line is all
spaces. -/
def lastNonSpace (line : List Char) (columns : Nat) : Int :=
  match (List.range columns).find? (fun i => !(lineAt line (columns - 1 - i) == ' ')) with
  | some i => ((columns - 1 - i : Nat) : Int)
  | none => (columns : Int) - 1

/-- Python whitespace as stripped by `str.strip()`, on the ASCII range:
space, tab, newline, carriage return, vertical tab, form feed. -/
def pyIsSpace (c : Char) : Bool :=
  c == ' ' || c == '\t' || c == '\n' || c == '\r' || c == Char.ofNat 11 || c == Char.ofNat 12

/-- Python `str.strip()`: remove leading and trailing whitespace. -/
def pyStrip (l : List Char) : List Char :=
  ((l.dropWhile pyIsSpace).reverse.dropWhile pyIsSpace).reverse

/-- Screen geometry record; its fields are normalized-device-coordinate
floats plus the grid dimensions, none of which any claim inspects, so it
is modelled as an opaque token compared structurally. -/
structure ScreenGeometry where
  gid : Nat
deriving Repr, DecidableEq

/-- Cursor snapshot (`Cursor` namedtuple); shape and color are opaque
tokens. -/
structure Cursor where
  x : Int
  y : Int
  hidden : Bool
  shape : Nat
  color : Nat
  blink : Bool
deriving Repr, DecidableEq

/-- Modelled from the spec: contents of a sprite-map buffer as produced by
the external C functions, tracked as provenance tokens — `screenData` for
a fill by `screen.update_cell_data`, `scrollOf` for
`screen.set_scroll_cell_data` output, `selected` for
`screen.apply_selection` output, `zeroed` for a fresh allocation. -/
inductive BufContent
  | zeroed (size : Nat)
  | screenData (tick : Nat)
  | scrollOf (main : BufContent) (offset : Nat)
  | selected (base : BufContent) (sx sy ex ey : Int)
deriving Repr, DecidableEq

/-- The mutable state of a `CharGrid` object that the claims concern. -/
structure CharGrid where
  screen : Screen
  current_selection : Selection
  last_rendered_selection : (Int × Int) × (Int × Int)
  render_buf_is_dirty : Bool
  render_data : Option ScreenGeometry
  scrolled_by : Nat
  screen_geometry : ScreenGeometry
  main_sprite_map : BufContent
  scroll_sprite_map : BufContent
  render_buf : BufContent
  selection_buf : BufContent
  current_cursor : Cursor
deriving Repr, DecidableEq

/-- Modelled from the spec: what one call into the external screen model
reports and produces during `update_cell_data` — the dirty flag read
first, the `(cursor_changed, history_line_added_count)` return, the main
sprite-map contents it wrote, the new cursor, and the screen state after
the call (its history may have grown concurrently). -/
structure ScreenUpdate where
  is_dirty : Bool
  cursor_changed : Bool
  history_line_added_count : Nat
  newMain : BufContent
  newCursor : Cursor
  newScreen : Screen
deriving Repr, DecidableEq

/-- Embedding of `CharGrid.update_cell_data`: pulls fresh cell data from the screen
model, advances a nonzero scroll offset by the lines newly added to
history (clamped to the history length), rebuilds the scroll buffer when
scrolled, clears the selection if the screen was dirty, copies the chosen
buffer into the render buffer and marks it dirty. -/
def update_cell_data (g : CharGrid) (u : ScreenUpdate) : CharGrid :=
  let is_dirty := u.is_dirty
  let main := u.newMain
  let scrolled := if g.scrolled_by ≠ 0 then
      min (g.scrolled_by + u.history_line_added_count) u.newScreen.historyLines.length
    else g.scrolled_by
  let scrollmap := if g.scrolled_by ≠ 0 then BufContent.scrollOf main scrolled
    else g.scroll_sprite_map
  let data := if scrolled ≠ 0 then scrollmap else main
  { g with
    screen := u.newScreen
    main_sprite_map := main
    scroll_sprite_map := scrollmap
    scrolled_by := scrolled
    current_selection := if is_dirty then Selection.clear else g.current_selection
    render_buf := data
    render_data := some g.screen_geometry
    render_buf_is_dirty := true
    current_cursor := if u.cursor_changed then u.newCursor else g.current_cursor }

/-- The `amt` argument of `CharGrid.scroll`: a signed integer or one of the
symbolic units `'line'`, `'page'`, `'full'`. -/
inductive ScrollAmount
  | int (n : Int)
  | line
  | page
  | full
deriving Repr, DecidableEq

/-- The symbolic-unit mapping at the top of `CharGrid.scroll`: `'line'` is
1, `'page'` is `lines - 1`, `'full'` is `historybuf.count`. -/
def scroll_amt (g : CharGrid) (a : ScrollAmount) : Int :=
  match a with
  | ScrollAmount.int n => n
  | ScrollAmount.line => 1
  | ScrollAmount.page => (g.screen.lines : Int) - 1
  | ScrollAmount.full => (g.screen.historyLines.length : Int)

/-- Embedding of `CharGrid.scroll(amt, upwards)`: maps symbolic units, flips the sign
when scrolling downwards, clamps the new offset to
`[0, historybuf.count]`, and resynchronizes cell data only when the offset
actually changed. -/
def scroll (g : CharGrid) (a : ScrollAmount) (upwards : Bool) (u : ScreenUpdate) : CharGrid :=
  let amt0 := scroll_amt g a
  let amt := if upwards then amt0 else -amt0
  let y : Int := max 0 (min ((g.scrolled_by : Int) + amt) (g.screen.historyLines.length : Int))
  if y ≠ (g.scrolled_by : Int) then
    update_cell_data { g with scrolled_by := y.toNat } u
  else g

/-- Embedding of `CharGrid.cell_for_pos(x, y)`: pixel coordinates to cell coordinates by
floor division with the cell size. -/
def cell_for_pos (cw ch : Int) (x y : Int) : Int × Int :=
  (x.fdiv cw, y.fdiv ch)

/-- Embedding of `CharGrid.update_drag(is_press, x, y)`: here `is_press` is `True` on press,
`False` on release, `None` during motion (modelled as `Option Bool`; only
`some true` is truthy).  Returns the new state together with the text
handed to `set_primary_selection`, when any. -/
def update_drag (g : CharGrid) (is_press : Option Bool) (cw ch px py : Int) :
    CharGrid × Option (List Char) :=
  let p := cell_for_pos cw ch px py
  let x := p.1
  let y := p.2
  if 0 ≤ x ∧ x < (g.screen.columns : Int) ∧ 0 ≤ y ∧ y < (g.screen.lines : Int) then
    if is_press = some true then
      ({ g with current_selection :=
          { g.current_selection with
            start_x := x, end_x := x, start_y := y, end_y := y,
            start_scrolled_by := (g.scrolled_by : Int),
            end_scrolled_by := (g.scrolled_by : Int),
            in_progress := true } }, none)
    else if g.current_selection.in_progress then
      if is_press = some false then
        let sel2 := { g.current_selection with
          end_x := x, end_y := y, end_scrolled_by := (g.scrolled_by : Int),
          in_progress := false }
        let ps := text_for_selection g.screen g.scrolled_by sel2
        if ps ≠ [] ∧ pyStrip ps ≠ [] then
          ({ g with current_selection := sel2 }, some ps)
        else
          ({ g with current_selection := sel2 }, none)
      else
        ({ g with current_selection :=
            { g.current_selection with
              end_x := x, end_y := y,
              end_scrolled_by := (g.scrolled_by : Int) } }, none)
    else (g, none)
  else (g, none)

/-- Embedding of `CharGrid.multi_click(count, x, y)`: double click selects the word run
under the cell, triple click selects from the first to the last non-space
column; out-of-bounds positions and other counts leave the state
unchanged. -/
def multi_click (g : CharGrid) (count : Nat) (cw ch px py : Int) : CharGrid :=
  let p := cell_for_pos cw ch px py
  let x := p.1
  let y := p.2
  match screen_line_content g.screen g.scrolled_by y with
  | none => g
  | some line =>
    if 0 ≤ x ∧ x < (g.screen.columns : Int) ∧ (count = 2 ∨ count = 3) then
      let s1 := { g.current_selection with
        start_scrolled_by := (g.scrolled_by : Int),
        end_scrolled_by := (g.scrolled_by : Int),
        start_y := y, end_y := y, in_progress := false }
      let s2 :=
        if count = 3 then
          { s1 with start_x := firstNonSpace line g.screen.columns,
                    end_x := lastNonSpace line g.screen.columns }
        else
          let i1 := scan_left line (x.toNat + 1) x
          let sx := if i1 = x then i1 else i1 + 1
          let i2 := scan_right line g.screen.columns (g.screen.columns + 1) x
          let ex := if i2 = x then i2 else i2 - 1
          { s1 with start_x := sx, end_x := ex }
      { g with current_selection := s2 }
    else g

/-- The externally visible work of one `prepare_for_render` call:
whether the selection composite (copy plus `apply_selection`) ran, and
whether a buffer was handed to `sprites.set_sprite_map`. -/
structure RenderEffects where
  composited : Bool
  uploaded : Bool
deriving Repr, DecidableEq

/-- Embedding of `CharGrid.prepare_for_render(sprites)`: returns early when no render
data exists; otherwise composites the selection buffer when the selection
is non-empty and the cache is stale, uploads the chosen buffer when the
cache is stale, clears the dirty flag and records the selection handed
out.  Returns the new state, the geometry returned to the caller, and the
work performed. -/
def prepare_for_render (g : CharGrid) : CharGrid × Option ScreenGeometry × RenderEffects :=
  match g.render_data with
  | none => (g, none, { composited := false, uploaded := false })
  | some sg =>
    let sel := g.current_selection.limits (g.scrolled_by : Int)
    let s := sel.1
    let e := sel.2
    let doComp : Bool := decide (s ≠ e) && (g.render_buf_is_dirty || decide (sel ≠ g.last_rendered_selection))
    let selbuf := if doComp then BufContent.selected g.render_buf s.1 s.2 e.1 e.2
      else g.selection_buf
    let doUpload : Bool := g.render_buf_is_dirty || decide (g.last_rendered_selection ≠ sel)
    ({ g with
        selection_buf := selbuf
        render_buf_is_dirty := if doUpload then false else g.render_buf_is_dirty
        last_rendered_selection := if doUpload then sel else g.last_rendered_selection },
     some sg,
     { composited := doComp, uploaded := doUpload })

/-! Concrete fixtures used by the scenario parts of the theorems. -/

/-- A cursor at the origin. -/
def cursor0 : Cursor :=
  { x := 0, y := 0, hidden := false, shape := 0, color := 0, blink := false }

/-- A freshly constructed grid over a given screen, mirroring
`CharGrid.__init__`: empty selection, dirty render buffer, no render data
yet, offset zero. -/
def baseGrid (sc : Screen) : CharGrid :=
  { screen := sc, current_selection := Selection.clear,
    last_rendered_selection := Selection.clear.limits 0,
    render_buf_is_dirty := true, render_data := none, scrolled_by := 0,
    screen_geometry := { gid := 0 },
    main_sprite_map := BufContent.zeroed 0, scroll_sprite_map := BufContent.zeroed 0,
    render_buf := BufContent.zeroed 0, selection_buf := BufContent.zeroed 0,
    current_cursor := cursor0 }

/-- A selection dragged from column 2 of row 3 up-right to column 5 of
row 0, both endpoints recorded at offset 0. -/
def upRightSel : Selection :=
  { in_progress := false, start_x := 2, start_y := 3, start_scrolled_by := 0,
    end_x := 5, end_y := 0, end_scrolled_by := 0 }

/-- A 6-column, 4-row screen with every cell a letter (no blanks). -/
def lettersScreen : Screen :=
  { columns := 6, lines := 4,
    mainLines := ["abcdef".toList, "ghijkl".toList, "mnopqr".toList, "stuvwx".toList],
    historyLines := [] }

/-- The 10-column screen of the text-extraction scenario. -/
def helloScreen : Screen :=
  { columns := 10, lines := 2,
    mainLines := ["hello     ".toList, "world     ".toList], historyLines := [] }

/-- The selection of the text-extraction scenario: start (0,0), end (4,1). -/
def helloSel : Selection :=
  { in_progress := false, start_x := 0, start_y := 0, start_scrolled_by := 0,
    end_x := 4, end_y := 1, end_scrolled_by := 0 }

/-- The line of the word-selection scenario. -/
def fooLine : List Char := "foo bar".toList

/-- A 7-column, 1-row grid showing `"foo bar"`. -/
def fooGrid : CharGrid :=
  baseGrid { columns := 7, lines := 1, mainLines := [fooLine], historyLines := [] }

/-- A screen with a 500-line scroll-back history. -/
def histScreen : Screen :=
  { columns := 1, lines := 2, mainLines := [[], []],
    historyLines := List.replicate 500 [] }

/-- A grid over `histScreen`, at offset 0. -/
def grid500 : CharGrid := baseGrid histScreen

/-- A screen-model report with nothing dirty and no history growth over
`histScreen`, used when scrolling resynchronizes cell data. -/
def upd500 : ScreenUpdate :=
  { is_dirty := false, cursor_changed := false, history_line_added_count := 0,
    newMain := BufContent.screenData 1, newCursor := cursor0, newScreen := histScreen }

/-- A grid that has render data, for the render-cache scenarios. -/
def gridReady : CharGrid :=
  { baseGrid helloScreen with render_data := some { gid := 7 } }

/-- A grid with a drag in progress anchored at the origin. -/
def gridDragging : CharGrid :=
  { baseGrid helloScreen with current_selection :=
      { in_progress := true, start_x := 0, start_y := 0, start_scrolled_by := 0,
        end_x := 0, end_y := 0, end_scrolled_by := 0 } }

/-- A dirty screen-model report over `helloScreen`. -/
def updDirty : ScreenUpdate :=
  { is_dirty := true, cursor_changed := false, history_line_added_count := 0,
    newMain := BufContent.screenData 2, newCursor := cursor0, newScreen := helloScreen }

/-- The endpoint ordering asserted by the spec for `limits`: lexicographic
by (row, column) on `(column, row)` pairs — rows compared first, columns
breaking ties. -/
def rowColLe (a b : Int × Int) : Prop :=
  a.2 < b.2 ∨ (a.2 = b.2 ∧ a.1 ≤ b.1)

instance (a b : Int × Int) : Decidable (rowColLe a b) := by
  unfold rowColLe
  infer_instance

end Kitty

namespace Kitty

/-- C1: the code violates the claim.  `limits` compares the endpoints as
Python `(column, row)` tuples, so it orders them lexicographically by
column first.  For the up-right selection from (col 2, row 3) to
(col 5, row 0) at offset 0 it returns start = (2, 3), end = (5, 0): the
rows are distinct and the start row is larger, refuting the claimed
(row, column) ordering; as a consequence `text_for_selection`, which walks
rows from the start row up to the end row, extracts nothing from this
non-empty selection over a screen full of letters. -/
theorem limits_not_row_ordered :
    Selection.limits upRightSel 0 = ((2, 3), (5, 0)) ∧
    ¬ rowColLe (Selection.limits upRightSel 0).1 (Selection.limits upRightSel 0).2 ∧
    text_for_selection lettersScreen 0 upRightSel = [] := by
  refine ⟨by decide, by decide, by decide⟩

/-- C2: re-basing invariant.  `limits o` returns exactly the two endpoints
re-based by `row - recorded_offset + o` with columns unchanged (in one of
the two orders), and querying at offset `o + k` instead of `o` shifts both
returned rows by exactly `k` while leaving the columns and the ordering
unchanged. -/
theorem limits_rebase_shift (s : Selection) (o k : Int) :
    (s.limits o = ((s.start_x, s.start_y - s.start_scrolled_by + o),
                   (s.end_x, s.end_y - s.end_scrolled_by + o)) ∨
     s.limits o = ((s.end_x, s.end_y - s.end_scrolled_by + o),
                   (s.start_x, s.start_y - s.start_scrolled_by + o))) ∧
    (s.limits (o + k)).1 = ((s.limits o).1.1, (s.limits o).1.2 + k) ∧
    (s.limits (o + k)).2 = ((s.limits o).2.1, (s.limits o).2.2 + k) := by
  have hsh : tupLe (s.start_x, s.start_y - s.start_scrolled_by + (o + k))
      (s.end_x, s.end_y - s.end_scrolled_by + (o + k)) =
      tupLe (s.start_x, s.start_y - s.start_scrolled_by + o)
      (s.end_x, s.end_y - s.end_scrolled_by + o) := by
    simp only [tupLe, decide_eq_decide]
    omega
  by_cases h : tupLe (s.start_x, s.start_y - s.start_scrolled_by + o)
      (s.end_x, s.end_y - s.end_scrolled_by + o) = true
  · simp only [Selection.limits, hsh, h, if_true]
    exact ⟨Or.inl trivial, by ring_nf, by ring_nf⟩
  · rw [Bool.not_eq_true] at h
    simp only [Selection.limits, hsh, h, Bool.false_eq_true, if_false]
    exact ⟨Or.inr trivial, by ring_nf, by ring_nf⟩

/-- C6: `screen_line` resolution.  At offset 0 an in-bounds row maps to the
live row itself; at a positive offset, rows above the offset map into
history at depth `offset - row` and the rest map to live row
`row - offset`; rows outside `[0, lines)` resolve to no line. -/
theorem screen_line_resolution (sc : Screen) (sb : Nat) (y : Int) :
    (sb = 0 → 0 ≤ y → y < (sc.lines : Int) →
      screen_line sc sb y = some (LineRef.live y.toNat)) ∧
    (0 < sb → 0 ≤ y → y < (sc.lines : Int) → y < (sb : Int) →
      screen_line sc sb y = some (LineRef.history (sb - y.toNat))) ∧
    (0 < sb → 0 ≤ y → y < (sc.lines : Int) → (sb : Int) ≤ y →
      screen_line sc sb y = some (LineRef.live (y.toNat - sb))) ∧
    ((y < 0 ∨ (sc.lines : Int) ≤ y) → screen_line sc sb y = none) := by
  refine ⟨?_, ?_, ?_, ?_⟩
  · intro h0 h1 h2
    rw [screen_line, if_pos ⟨h1, h2⟩, if_neg (by omega)]
  · intro h0 h1 h2 h3
    rw [screen_line, if_pos ⟨h1, h2⟩, if_pos (by omega), if_pos h3]
  · intro h0 h1 h2 h3
    rw [screen_line, if_pos ⟨h1, h2⟩, if_pos (by omega), if_neg (by omega)]
  · intro h
    rw [screen_line, if_neg (by omega)]

/-- C8: `update_cell_data` clears the selection exactly when the screen
reported itself dirty — resetting it to the empty, not-in-progress state
with all endpoints and recorded offsets zero — and leaves it untouched
otherwise. -/
theorem update_cell_data_selection (g : CharGrid) (u : ScreenUpdate) :
    (u.is_dirty = true → (update_cell_data g u).current_selection = Selection.clear) ∧
    (u.is_dirty = false → (update_cell_data g u).current_selection = g.current_selection) ∧
    Selection.clear.in_progress = false ∧ Selection.clear.start_x = 0 ∧
    Selection.clear.start_y = 0 ∧ Selection.clear.end_x = 0 ∧
    Selection.clear.end_y = 0 ∧ Selection.clear.start_scrolled_by = 0 ∧
    Selection.clear.end_scrolled_by = 0 := by
  refine ⟨fun h => ?_, fun h => ?_, rfl, rfl, rfl, rfl, rfl, rfl, rfl⟩ <;>
    simp [update_cell_data, h]

/-- Witness for C6: at offset 2, rendered row 1 resolves to history
depth 1. -/
theorem screen_line_resolution_witness :
    screen_line histScreen 2 1 = some (LineRef.history 1) :=
  (screen_line_resolution histScreen 2 1).2.1 (by decide) (by decide)
    (by decide) (by decide)

/-- Witness for C8 at a concrete dirty update. -/
theorem update_cell_data_selection_witness :
    (update_cell_data gridDragging updDirty).current_selection = Selection.clear :=
  (update_cell_data_selection gridDragging updDirty).1 rfl

/-- Helper: the head of a `dropWhile` result never satisfies the
predicate. -/
theorem head?_dropWhile_false {p : Char → Bool} {l : List Char} {c : Char}
    (h : (l.dropWhile p).head? = some c) : p c = false := by
  induction l with
  | nil => simp [List.dropWhile] at h
  | cons a t ih =>
    rw [List.dropWhile_cons] at h
    by_cases hp : p a = true
    · rw [if_pos hp] at h
      exact ih h
    · rw [if_neg hp] at h
      simp only [List.head?_cons, Option.some.injEq] at h
      subst h
      simpa using hp

/-- Helper: trimming trailing spaces leaves no trailing space. -/
theorem rstripSpace_no_trailing {l : List Char} :
    (rstripSpace l).getLast? ≠ some ' ' := by
  intro h
  rw [rstripSpace, List.getLast?_reverse] at h
  have := head?_dropWhile_false h
  simp at this

/-- C3: text extraction.  A selection whose normalized limits coincide
extracts the empty text; every line placed in the extracted list has been
trimmed of trailing spaces; the result is those lines joined by single
newlines; and the scenario — 10-column grid, line 0 `"hello     "`,
line 1 `"world     "`, selection (0,0) to (4,1) — extracts exactly
`"hello\nworld"` (the first row clipped at the start column, the last row
at the end column). -/
theorem text_extraction_spec :
    (∀ (sc : Screen) (sb : Nat) (sel : Selection),
      (sel.limits (sb : Int)).1 = (sel.limits (sb : Int)).2 →
      text_for_selection sc sb sel = []) ∧
    (∀ (sc : Screen) (sb : Nat) (sel : Selection) (l : List Char),
      l ∈ selection_lines sc sb sel → l.getLast? ≠ some ' ') ∧
    (∀ (sc : Screen) (sb : Nat) (sel : Selection),
      text_for_selection sc sb sel =
        List.intercalate ['\n'] (selection_lines sc sb sel)) ∧
    text_for_selection helloScreen 0 helloSel = "hello\nworld".toList := by
  refine ⟨?_, ?_, fun _ _ _ => rfl, by decide⟩
  · intro sc sb sel h
    have hsl : selection_lines sc sb sel = [] := by
      simp only [selection_lines]
      split
      · next hne => exact absurd h hne
      · rfl
    rw [text_for_selection, hsl]
    rfl
  · intro sc sb sel l hl
    simp only [selection_lines] at hl
    split at hl
    · rw [List.mem_filterMap] at hl
      obtain ⟨y, _, hf⟩ := hl
      cases hsl : screen_line sc sb y with
      | none => rw [hsl] at hf; simp at hf
      | some ref =>
        rw [hsl] at hf
        simp only [Option.some.injEq] at hf
        subst hf
        exact rstripSpace_no_trailing
    · simp at hl

/-- Witness for C3: an empty selection extracts the empty text. -/
theorem text_extraction_spec_witness :
    text_for_selection helloScreen 0 Selection.clear = [] :=
  text_extraction_spec.1 helloScreen 0 Selection.clear (by decide)

/-- Helper: `scroll` written as an explicit conditional. -/
theorem scroll_eq (g : CharGrid) (a : ScrollAmount) (up : Bool) (u : ScreenUpdate) :
    scroll g a up u =
      if max 0 (min ((g.scrolled_by : Int) + (if up then scroll_amt g a else -(scroll_amt g a)))
          (g.screen.historyLines.length : Int)) ≠ (g.scrolled_by : Int) then
        update_cell_data { g with scrolled_by :=
          (max 0 (min ((g.scrolled_by : Int) + (if up then scroll_amt g a else -(scroll_amt g a)))
            (g.screen.historyLines.length : Int))).toNat } u
      else g := rfl

/-- Helper: the scroll offset written by `update_cell_data`. -/
theorem update_cell_data_scrolled_by (g : CharGrid) (u : ScreenUpdate) :
    (update_cell_data g u).scrolled_by =
      if g.scrolled_by ≠ 0 then
        min (g.scrolled_by + u.history_line_added_count) u.newScreen.historyLines.length
      else g.scrolled_by := rfl

/-- Helper: `update_cell_data` adopts the post-call screen state. -/
theorem update_cell_data_screen (g : CharGrid) (u : ScreenUpdate) :
    (update_cell_data g u).screen = u.newScreen := rfl

/-- C4: scrolling clamps.  With the symbolic units mapped (`line` to 1,
`page` to `lines - 1`, `full` to the history length) and the sign flipped
for downward scrolls, the resulting offset is
`clamp(current + delta, 0, history_length)` whenever the history did not
grow during the resynchronization; the offset never exceeds the history
length of the resulting state (and is a natural number, hence at least 0);
and from offset 0 with 500 history lines, `scroll full upwards` reaches
500 and a further upward scroll stays at 500. -/
theorem scroll_clamp :
    (∀ (g : CharGrid) (a : ScrollAmount) (up : Bool) (u : ScreenUpdate),
      u.history_line_added_count = 0 →
      u.newScreen.historyLines.length = g.screen.historyLines.length →
      ((scroll g a up u).scrolled_by : Int) =
        max 0 (min ((g.scrolled_by : Int) +
            (if up then scroll_amt g a else -(scroll_amt g a)))
          (g.screen.historyLines.length : Int))) ∧
    (∀ (g : CharGrid) (a : ScrollAmount) (up : Bool) (u : ScreenUpdate),
      (scroll g a up u).scrolled_by ≤ (scroll g a up u).screen.historyLines.length) ∧
    (∀ (g : CharGrid) (n : Int),
      scroll_amt g ScrollAmount.line = 1 ∧
      scroll_amt g ScrollAmount.page = (g.screen.lines : Int) - 1 ∧
      scroll_amt g ScrollAmount.full = (g.screen.historyLines.length : Int) ∧
      scroll_amt g (ScrollAmount.int n) = n) ∧
    (scroll grid500 ScrollAmount.full true upd500).scrolled_by = 500 ∧
    (scroll (scroll grid500 ScrollAmount.full true upd500)
        ScrollAmount.full true upd500).scrolled_by = 500 := by
  refine ⟨?_, ?_, fun g n => ⟨rfl, rfl, rfl, rfl⟩, by decide, by decide⟩
  · intro g a up u h0 hlen
    rw [scroll_eq]
    by_cases hy : max 0 (min ((g.scrolled_by : Int) +
        (if up then scroll_amt g a else -(scroll_amt g a)))
        (g.screen.historyLines.length : Int)) ≠ (g.scrolled_by : Int)
    · rw [if_pos hy, update_cell_data_scrolled_by]
      dsimp only
      rw [h0, hlen]
      by_cases ht : (max 0 (min ((g.scrolled_by : Int) +
          (if up then scroll_amt g a else -(scroll_amt g a)))
          (g.screen.historyLines.length : Int))).toNat ≠ 0
      · rw [if_pos ht]
        omega
      · rw [if_neg ht]
        omega
    · rw [if_neg hy]
      rw [not_ne_iff] at hy
      omega
  · intro g a up u
    rw [scroll_eq]
    by_cases hy : max 0 (min ((g.scrolled_by : Int) +
        (if up then scroll_amt g a else -(scroll_amt g a)))
        (g.screen.historyLines.length : Int)) ≠ (g.scrolled_by : Int)
    · rw [if_pos hy, update_cell_data_scrolled_by, update_cell_data_screen]
      dsimp only
      by_cases ht : (max 0 (min ((g.scrolled_by : Int) +
          (if up then scroll_amt g a else -(scroll_amt g a)))
          (g.screen.historyLines.length : Int))).toNat ≠ 0
      · rw [if_pos ht]
        omega
      · rw [if_neg ht]
        omega
    · rw [if_neg hy]
      rw [not_ne_iff] at hy
      omega

/-- Witness for C4: an upward scroll by 2 from offset 0 lands on offset 2. -/
theorem scroll_clamp_witness :
    ((scroll grid500 (ScrollAmount.int 2) true upd500).scrolled_by : Int) = 2 :=
  (scroll_clamp.1 grid500 (ScrollAmount.int 2) true upd500 rfl rfl).trans (by decide)

/-- C7: render-cache idempotence.  When render data exists, one call to
`prepare_for_render` leaves the dirty flag false and returns the cached
geometry, and a second call with no intervening mutation performs neither
the selection composite nor the buffer upload, returns the same geometry,
and leaves the state exactly as the first call left it. -/
theorem prepare_for_render_idempotent (g : CharGrid) (sg : ScreenGeometry)
    (h : g.render_data = some sg) :
    (prepare_for_render g).1.render_buf_is_dirty = false ∧
    (prepare_for_render g).2.1 = some sg ∧
    (prepare_for_render (prepare_for_render g).1).2.1 = some sg ∧
    (prepare_for_render (prepare_for_render g).1).2.2.composited = false ∧
    (prepare_for_render (prepare_for_render g).1).2.2.uploaded = false ∧
    (prepare_for_render (prepare_for_render g).1).1 = (prepare_for_render g).1 := by
  obtain ⟨scr, cs, lrs, dirty, rd, sb, geo, msm, ssm, rb, selb, cur⟩ := g
  dsimp only at h
  subst h
  by_cases hl : lrs = Selection.limits cs (sb : Int) <;>
    cases dirty <;>
      simp [prepare_for_render, hl]

/-- Witness for C7 at a concrete grid holding render data. -/
theorem prepare_for_render_idempotent_witness :
    (prepare_for_render gridReady).1.render_buf_is_dirty = false ∧
    (prepare_for_render (prepare_for_render gridReady).1).2.2.uploaded = false :=
  ⟨(prepare_for_render_idempotent gridReady { gid := 7 } rfl).1,
   (prepare_for_render_idempotent gridReady { gid := 7 } rfl).2.2.2.2.1⟩

/-- C9: out-of-bounds mouse positions.  When the derived cell position lies
outside the grid — column outside `[0, columns)` or row outside
`[0, lines)` — `update_drag` returns the state unchanged and publishes
nothing, and `multi_click` returns the state unchanged, for every press
kind and click count. -/
theorem mouse_out_of_bounds_noop (g : CharGrid) (ip : Option Bool) (count : Nat)
    (cw ch px py : Int)
    (h : ¬ (0 ≤ (cell_for_pos cw ch px py).1 ∧
            (cell_for_pos cw ch px py).1 < (g.screen.columns : Int) ∧
            0 ≤ (cell_for_pos cw ch px py).2 ∧
            (cell_for_pos cw ch px py).2 < (g.screen.lines : Int))) :
    update_drag g ip cw ch px py = (g, none) ∧
    multi_click g count cw ch px py = g := by
  constructor
  · simp only [update_drag]
    rw [if_neg h]
  · simp only [multi_click]
    cases hsc : screen_line_content g.screen g.scrolled_by (cell_for_pos cw ch px py).2 with
    | none => rfl
    | some line =>
      have hy : 0 ≤ (cell_for_pos cw ch px py).2 ∧
          (cell_for_pos cw ch px py).2 < (g.screen.lines : Int) := by
        by_contra hyn
        rw [screen_line_content, screen_line, if_neg hyn] at hsc
        simp at hsc
      simp only [hsc]
      rw [if_neg (fun hc => h ⟨hc.1, hc.2.1, hy.1, hy.2⟩)]

/-- Witness for C9 at a click left of the grid. -/
theorem mouse_out_of_bounds_noop_witness :
    update_drag (baseGrid helloScreen) (some true) 1 1 (-5) 0 =
      (baseGrid helloScreen, none) ∧
    multi_click (baseGrid helloScreen) 2 1 1 (-5) 0 = baseGrid helloScreen :=
  mouse_out_of_bounds_noop (baseGrid helloScreen) (some true) 2 1 1 (-5) 0 (by decide)

/-- Helper: `pyStrip` returns the empty list exactly when every character
of the input is whitespace. -/
theorem pyStrip_eq_nil_iff (l : List Char) :
    pyStrip l = [] ↔ ∀ c ∈ l, pyIsSpace c = true := by
  rw [pyStrip, List.reverse_eq_nil_iff, List.dropWhile_eq_nil_iff]
  constructor
  · intro h c hc
    rw [← List.takeWhile_append_dropWhile pyIsSpace l] at hc
    rcases List.mem_append.mp hc with h1 | h2
    · exact List.mem_takeWhile_imp h1
    · exact h c (List.mem_reverse.mpr h2)
  · intro h x hx
    have hx2 : x ∈ l.dropWhile pyIsSpace := List.mem_reverse.mp hx
    have hx3 : x ∈ l := by
      rw [← List.takeWhile_append_dropWhile pyIsSpace l]
      exact List.mem_append.mpr (Or.inr hx2)
    exact h x hx3

/-- C10: finalizing a drag.  On a release (`is_press` exactly `False`)
inside the grid while a selection is in progress, the end endpoint is
updated to the released cell, the in-progress flag is cleared, and the
extracted text is published to the primary selection exactly when its
`strip()` is non-empty — that is, when it contains at least one
non-whitespace character. -/
theorem update_drag_release_publishes (g : CharGrid) (cw ch px py : Int)
    (hin : 0 ≤ (cell_for_pos cw ch px py).1 ∧
           (cell_for_pos cw ch px py).1 < (g.screen.columns : Int) ∧
           0 ≤ (cell_for_pos cw ch px py).2 ∧
           (cell_for_pos cw ch px py).2 < (g.screen.lines : Int))
    (hip : g.current_selection.in_progress = true) :
    (update_drag g (some false) cw ch px py).1 =
      { g with current_selection :=
        { g.current_selection with
          end_x := (cell_for_pos cw ch px py).1,
          end_y := (cell_for_pos cw ch px py).2,
          end_scrolled_by := (g.scrolled_by : Int),
          in_progress := false } } ∧
    (update_drag g (some false) cw ch px py).2 =
      (if pyStrip (text_for_selection g.screen g.scrolled_by
            { g.current_selection with
              end_x := (cell_for_pos cw ch px py).1,
              end_y := (cell_for_pos cw ch px py).2,
              end_scrolled_by := (g.scrolled_by : Int),
              in_progress := false }) = [] then none
       else some (text_for_selection g.screen g.scrolled_by
            { g.current_selection with
              end_x := (cell_for_pos cw ch px py).1,
              end_y := (cell_for_pos cw ch px py).2,
              end_scrolled_by := (g.scrolled_by : Int),
              in_progress := false })) ∧
    (∀ l : List Char, pyStrip l = [] ↔ ∀ c ∈ l, pyIsSpace c = true) := by
  have hnp : ¬((some false : Option Bool) = some true) := by decide
  simp only [update_drag]
  rw [if_pos hin, if_neg hnp, if_pos hip, if_pos trivial]
  set ps := text_for_selection g.screen g.scrolled_by
    { g.current_selection with
      end_x := (cell_for_pos cw ch px py).1,
      end_y := (cell_for_pos cw ch px py).2,
      end_scrolled_by := (g.scrolled_by : Int),
      in_progress := false } with hps
  refine ⟨?_, ?_, fun l => pyStrip_eq_nil_iff l⟩
  · by_cases hc : ps ≠ [] ∧ pyStrip ps ≠ []
    · rw [if_pos hc]
    · rw [if_neg hc]
  · by_cases hst : pyStrip ps = []
    · have hc : ¬(ps ≠ [] ∧ pyStrip ps ≠ []) := fun hc => hc.2 hst
      rw [if_neg hc, if_pos hst]
    · have hne : ps ≠ [] := by
        intro hnil
        exact hst (by rw [hnil]; rfl)
      rw [if_pos ⟨hne, hst⟩, if_neg hst]

/-- Witness for C10: releasing at cell (4, 1) over `helloScreen` publishes
the extracted text (here non-blank). -/
theorem update_drag_release_publishes_witness :
    (update_drag gridDragging (some false) 1 1 4 1).2 =
      some ("hello\nworld".toList) := by
  have h := (update_drag_release_publishes gridDragging 1 1 4 1
    (by decide) (by decide)).2.1
  rw [h]
  decide

/-- Helper: a leftward scan given enough fuel stops at -1 or at a non-word
column, stays within `[-1, i]`, and passes only word columns. -/
theorem scan_left_spec (line : List Char) :
    ∀ (fuel : Nat) (i : Int), -1 ≤ i → i + 1 ≤ (fuel : Int) →
      -1 ≤ scan_left line fuel i ∧ scan_left line fuel i ≤ i ∧
      (∀ j : Int, scan_left line fuel i < j → j ≤ i →
        matchesW (lineAt line j.toNat) = true) ∧
      (scan_left line fuel i = -1 ∨
        matchesW (lineAt line (scan_left line fuel i).toNat) = false) := by
  intro fuel
  induction fuel with
  | zero =>
    intro i h1 h2
    have hi : i = -1 := by omega
    subst hi
    exact ⟨le_refl _, le_refl _,
      fun j hj1 hj2 => absurd (lt_of_lt_of_le hj1 hj2) (lt_irrefl _), Or.inl rfl⟩
  | succ f ih =>
    intro i h1 h2
    by_cases hg : 0 ≤ i ∧ matchesW (lineAt line i.toNat) = true
    · have hstep : scan_left line (f + 1) i = scan_left line f (i - 1) := by
        simp only [scan_left, if_pos hg]
      obtain ⟨ih1, ih2, ih3, ih4⟩ := ih (i - 1) (by omega) (by omega)
      rw [hstep]
      refine ⟨ih1, by omega, ?_, ih4⟩
      intro j hj1 hj2
      rcases lt_or_eq_of_le hj2 with hlt | heq
      · exact ih3 j hj1 (by omega)
      · subst heq
        exact hg.2
    · have hstop : scan_left line (f + 1) i = i := by
        simp only [scan_left, if_neg hg]
      rw [hstop]
      refine ⟨h1, le_refl i,
        fun j hj1 hj2 => absurd (lt_of_lt_of_le hj1 hj2) (lt_irrefl i), ?_⟩
      by_cases hi : 0 ≤ i
      · right
        cases hW : matchesW (lineAt line i.toNat)
        · rfl
        · exact absurd ⟨hi, hW⟩ hg
      · left
        omega

/-- Helper: a rightward scan given enough fuel stops at `columns` or at a
non-word column, stays within `[i, columns]`, and passes only word
columns. -/
theorem scan_right_spec (line : List Char) (C : Nat) :
    ∀ (fuel : Nat) (i : Int), i ≤ (C : Int) → (C : Int) - i + 1 ≤ (fuel : Int) →
      i ≤ scan_right line C fuel i ∧ scan_right line C fuel i ≤ (C : Int) ∧
      (∀ j : Int, i ≤ j → j < scan_right line C fuel i →
        matchesW (lineAt line j.toNat) = true) ∧
      (scan_right line C fuel i = (C : Int) ∨
        matchesW (lineAt line (scan_right line C fuel i).toNat) = false) := by
  intro fuel
  induction fuel with
  | zero =>
    intro i h1 h2
    exact absurd h2 (by omega)
  | succ f ih =>
    intro i h1 h2
    by_cases hg : i < (C : Int) ∧ matchesW (lineAt line i.toNat) = true
    · have hstep : scan_right line C (f + 1) i = scan_right line C f (i + 1) := by
        simp only [scan_right, if_pos hg]
      obtain ⟨ih1, ih2, ih3, ih4⟩ := ih (i + 1) (by omega) (by omega)
      rw [hstep]
      refine ⟨by omega, ih2, ?_, ih4⟩
      intro j hj1 hj2
      rcases eq_or_lt_of_le hj1 with heq | hlt
      · rw [← heq]
        exact hg.2
      · exact ih3 j (by omega) hj2
    · have hstop : scan_right line C (f + 1) i = i := by
        simp only [scan_right, if_neg hg]
      rw [hstop]
      refine ⟨le_refl i, h1,
        fun j hj1 hj2 => absurd (lt_of_le_of_lt hj1 hj2) (lt_irrefl i), ?_⟩
      by_cases hi : i < (C : Int)
      · right
        cases hW : matchesW (lineAt line i.toNat)
        · rfl
        · exact absurd ⟨hi, hW⟩ hg
      · left
        omega

/-- Helper: the endpoint columns written by a double click, expressed
through the two scans. -/
theorem multi_click_double (g : CharGrid) (x y : Int) (line : List Char)
    (hline : screen_line_content g.screen g.scrolled_by y = some line)
    (hx0 : 0 ≤ x) (hxC : x < (g.screen.columns : Int)) :
    (multi_click g 2 1 1 x y).current_selection.start_x =
      (if scan_left line (x.toNat + 1) x = x then scan_left line (x.toNat + 1) x
       else scan_left line (x.toNat + 1) x + 1) ∧
    (multi_click g 2 1 1 x y).current_selection.end_x =
      (if scan_right line g.screen.columns (g.screen.columns + 1) x = x then
         scan_right line g.screen.columns (g.screen.columns + 1) x
       else scan_right line g.screen.columns (g.screen.columns + 1) x - 1) := by
  simp only [multi_click, cell_for_pos, Int.fdiv_one, hline]
  rw [if_pos ⟨hx0, hxC, by norm_num⟩]
  norm_num

/-- C5 counterexample: the claim's scenario miscounts the columns of
`"foo bar"`.  Column 4 holds `'b'`, a word character (the space is at
column 3), so a double click there expands the selection to columns 4..6;
the claim states it collapses to `start_x = end_x = 4`. -/
theorem multi_click_column4_expands :
    lineAt fooLine 4 = 'b' ∧ matchesW (lineAt fooLine 4) = true ∧
    (multi_click fooGrid 2 1 1 4 0).current_selection.start_x = 4 ∧
    (multi_click fooGrid 2 1 1 4 0).current_selection.end_x = 6 ∧
    ¬ (multi_click fooGrid 2 1 1 4 0).current_selection.end_x = 4 := by
  decide

/-- C5 (amended): double-click word selection.  For every in-bounds double
click, when the clicked cell is not a word character both endpoints
collapse to the clicked column; when it is, the endpoints become the
leftmost and rightmost columns of the contiguous run of word characters
containing the clicked column, stopping at column 0 and the last column.
A click resolves through `cell_for_pos` first.  On `"foo bar"`: clicking
column 1 yields columns 0..2; clicking column 3 (the space) collapses to
column 3; clicking column 4 (`'b'`) yields columns 4..6. -/
theorem multi_click_word_run :
    (∀ (g : CharGrid) (x y : Int) (line : List Char),
      screen_line_content g.screen g.scrolled_by y = some line →
      0 ≤ x → x < (g.screen.columns : Int) →
      (matchesW (lineAt line x.toNat) = false →
        (multi_click g 2 1 1 x y).current_selection.start_x = x ∧
        (multi_click g 2 1 1 x y).current_selection.end_x = x) ∧
      (matchesW (lineAt line x.toNat) = true →
        0 ≤ (multi_click g 2 1 1 x y).current_selection.start_x ∧
        (multi_click g 2 1 1 x y).current_selection.start_x ≤ x ∧
        x ≤ (multi_click g 2 1 1 x y).current_selection.end_x ∧
        (multi_click g 2 1 1 x y).current_selection.end_x < (g.screen.columns : Int) ∧
        (∀ j : Int, (multi_click g 2 1 1 x y).current_selection.start_x ≤ j →
          j ≤ (multi_click g 2 1 1 x y).current_selection.end_x →
          matchesW (lineAt line j.toNat) = true) ∧
        ((multi_click g 2 1 1 x y).current_selection.start_x = 0 ∨
          matchesW (lineAt line
            ((multi_click g 2 1 1 x y).current_selection.start_x - 1).toNat) = false) ∧
        ((multi_click g 2 1 1 x y).current_selection.end_x = (g.screen.columns : Int) - 1 ∨
          matchesW (lineAt line
            ((multi_click g 2 1 1 x y).current_selection.end_x + 1).toNat) = false))) ∧
    (∀ (g : CharGrid) (count : Nat) (cw ch px py : Int),
      multi_click g count cw ch px py =
        multi_click g count 1 1 (cell_for_pos cw ch px py).1 (cell_for_pos cw ch px py).2) ∧
    ((multi_click fooGrid 2 1 1 1 0).current_selection.start_x = 0 ∧
     (multi_click fooGrid 2 1 1 1 0).current_selection.end_x = 2) ∧
    ((multi_click fooGrid 2 1 1 3 0).current_selection.start_x = 3 ∧
     (multi_click fooGrid 2 1 1 3 0).current_selection.end_x = 3) ∧
    ((multi_click fooGrid 2 1 1 4 0).current_selection.start_x = 4 ∧
     (multi_click fooGrid 2 1 1 4 0).current_selection.end_x = 6) := by
  refine ⟨?_, ?_, by decide, by decide, by decide⟩
  case refine_2 =>
    intro g count cw ch px py
    simp only [multi_click, cell_for_pos, Int.fdiv_one]
  · intro g x y line hline hx0 hxC
    obtain ⟨hsx, hex⟩ := multi_click_double g x y line hline hx0 hxC
    constructor
    · intro hW
      have hl1 : scan_left line (x.toNat + 1) x = x := by
        have hng : ¬(0 ≤ x ∧ matchesW (lineAt line x.toNat) = true) := by
          intro hc
          rw [hW] at hc
          exact Bool.false_ne_true hc.2
        simp only [scan_left, if_neg hng]
      have hr1 : scan_right line g.screen.columns (g.screen.columns + 1) x = x := by
        have hng : ¬(x < (g.screen.columns : Int) ∧
            matchesW (lineAt line x.toNat) = true) := by
          intro hc
          rw [hW] at hc
          exact Bool.false_ne_true hc.2
        simp only [scan_right, if_neg hng]
      rw [hsx, hex, hl1, hr1]
      simp
    · intro hW
      have hstepL : scan_left line (x.toNat + 1) x = scan_left line x.toNat (x - 1) := by
        simp only [scan_left]
        exact if_pos ⟨hx0, hW⟩
      have hstepR : scan_right line g.screen.columns (g.screen.columns + 1) x =
          scan_right line g.screen.columns g.screen.columns (x + 1) := by
        simp only [scan_right]
        exact if_pos ⟨hxC, hW⟩
      obtain ⟨l1, l2, l3, l4⟩ := scan_left_spec line x.toNat (x - 1) (by omega) (by omega)
      obtain ⟨r1, r2, r3, r4⟩ :=
        scan_right_spec line g.screen.columns g.screen.columns (x + 1) (by omega) (by omega)
      have hsx2 : (multi_click g 2 1 1 x y).current_selection.start_x =
          scan_left line x.toNat (x - 1) + 1 := by
        rw [hsx, hstepL, if_neg (by omega)]
      have hex2 : (multi_click g 2 1 1 x y).current_selection.end_x =
          scan_right line g.screen.columns g.screen.columns (x + 1) - 1 := by
        rw [hex, hstepR, if_neg (by omega)]
      rw [hsx2, hex2]
      refine ⟨by omega, by omega, by omega, by omega, ?_, ?_, ?_⟩
      · intro j hj1 hj2
        rcases lt_trichotomy j x with hlt | heq | hgt
        · exact l3 j (by omega) (by omega)
        · subst heq
          exact hW
        · exact r3 j (by omega) (by omega)
      · rcases l4 with h4 | h4
        · left
          omega
        · right
          rw [Int.add_sub_cancel]
          exact h4
      · rcases r4 with h4 | h4
        · left
          omega
        · right
          rw [Int.sub_add_cancel]
          exact h4

/-- Witness for C5 at the click on the space (column 3) of `"foo bar"`. -/
theorem multi_click_word_run_witness :
    (multi_click fooGrid 2 1 1 3 0).current_selection.start_x = 3 ∧
    (multi_click fooGrid 2 1 1 3 0).current_selection.end_x = 3 :=
  (multi_click_word_run.1 fooGrid 3 0 fooLine (by decide) (by decide)
    (by decide)).1 (by decide)

end Kitty
